import Mathlib

/-!
# Verification of the Feynman Flashcards review engine

A shallow embedding of the review-session logic of the repository
(src/app.py, src/ai.py, src/mochi.py) together with proofs about it.

Conventions of the embedding:
* Python strings are `String` / `List Char`; Python string truthiness
  (`if s:`) is the test `s ≠ ""`, and `Option String` truthiness is
  "some and non-empty".
* Python functions that can raise model the exception as
  `Except PyExc _`; an operation the source guards (list indexing) is
  modelled with `Option` so that totality is a real statement.
* The two regular expressions of `ai.parse_card_content` and the
  `re.sub` removal are implemented directly for exactly those patterns
  (`^Source:\s*(https?://\S+)` with MULTILINE+IGNORECASE, its removal
  variant with trailing `\s*\n?`, and `<<\s*Source\s*>>\s*\n?(https?://\S+)`
  with IGNORECASE), with the leftmost-match and greedy semantics of
  the Python re module.
  Whitespace and lower-casing are modelled for the ASCII range, which
  covers every input used in the theorems below.
-/

namespace FeynmanFlashcards

/-- Python exception kinds relevant to the modelled code paths. -/
inductive PyExc where
  | attributeError
  | jsonDecodeError
  | transportError
  | runtimeError
deriving DecidableEq, Repr

/-! ## Python string primitives -/

/-- Python `\s` / `str.strip` whitespace (ASCII range). -/
def isPySpace (c : Char) : Bool :=
  c = ' ' || c = '\t' || c = '\n' || c = '\r' || c = '\x0b' || c = '\x0c'

/-- Python `str.strip()` on a character list. -/
def pyStripList (cs : List Char) : List Char :=
  ((cs.dropWhile isPySpace).reverse.dropWhile isPySpace).reverse

/-- Python `str.lstrip("#")`. -/
def pyLstripHash (cs : List Char) : List Char :=
  cs.dropWhile (fun c => c = '#')

/-- Python `str.strip()` on a `String`. -/
def pyStrip (s : String) : String := (pyStripList s.toList).asString

/-- Python `str.lower()` (ASCII case fold). -/
def pyLower (s : String) : String := (s.toList.map Char.toLower).asString

/-- Truthiness of an optional Python string: `some` and non-empty. -/
def optTruthy : Option String → Bool
  | none => false
  | some s => s ≠ ""

/-- Split at the first occurrence of a (non-empty) separator:
`some (before, after)` when found, `none` otherwise.  This is the core
of Python `s.split(sep, 1)` and of the membership test `sep in s`. -/
def splitFirst (sep : List Char) : List Char → Option (List Char × List Char)
  | [] => none
  | c :: rest =>
    if sep.isPrefixOf (c :: rest) then some ([], (c :: rest).drop sep.length)
    else
      match splitFirst sep rest with
      | some (b, a) => some (c :: b, a)
      | none => none

/-- Python `s.split(sep, 1)`: a list of one or two pieces. -/
def pySplitOnce (sep : List Char) (cs : List Char) : List (List Char) :=
  match splitFirst sep cs with
  | some (b, a) => [b, a]
  | none => [cs]

/-- Python `parts = s.split(sep, 1)` followed by the accesses
`parts[0]` and `parts[1] if len(parts) > 1 else ""`.  The indexing is
kept `Option`-valued so that its safety is provable, not assumed. -/
def pyGetParts (sep : List Char) (cs : List Char) : Option (List Char × List Char) :=
  match (pySplitOnce sep cs).get? 0,
        (if (pySplitOnce sep cs).length > 1 then (pySplitOnce sep cs).get? 1 else some []) with
  | some p0, some p1 => some (p0, p1)
  | _, _ => none

def dashes : List Char := ['-', '-', '-']
def ltlt : List Char := ['<', '<']
def gtgt : List Char := ['>', '>']
def nlSep : List Char := ['\n']

/-! ## The two `Source` regular expressions of `ai.parse_card_content` -/

/-- Case-insensitive literal match; returns the matched input characters
(original case) and the rest. -/
def matchCI : List Char → List Char → Option (List Char × List Char)
  | [], cs => some ([], cs)
  | _ :: _, [] => none
  | p :: ps, c :: cs =>
    if c.toLower = p.toLower then
      match matchCI ps cs with
      | some (m, r) => some (c :: m, r)
      | none => none
    else none

/-- Match `https?://\S+` (scheme case-insensitive): the matched URL text
and the rest.  `\S+` is the maximal non-whitespace run and must be
non-empty. -/
def matchUrl (cs : List Char) : Option (List Char × List Char) :=
  match matchCI "http".toList cs with
  | none => none
  | some (m1, r1) =>
    match matchCI "s://".toList r1 with
    | some (m2, r2) =>
      let u := r2.takeWhile (fun c => !(isPySpace c))
      let r3 := r2.dropWhile (fun c => !(isPySpace c))
      if u.isEmpty then none else some (m1 ++ m2 ++ u, r3)
    | none =>
      match matchCI "://".toList r1 with
      | some (m2, r2) =>
        let u := r2.takeWhile (fun c => !(isPySpace c))
        let r3 := r2.dropWhile (fun c => !(isPySpace c))
        if u.isEmpty then none else some (m1 ++ m2 ++ u, r3)
      | none => none

/-- Match `Source:\s*(https?://\S+)` at the current position, returning
group 1 (the URL text). -/
def matchSourceAt (cs : List Char) : Option (List Char) :=
  match matchCI "source:".toList cs with
  | none => none
  | some (_, r1) =>
    match matchUrl (r1.dropWhile isPySpace) with
    | some (u, _) => some u
    | none => none

/-- Model of the search for the pattern `^Source:\s*(https?://\S+)`
with MULTILINE and IGNORECASE: scan positions left to right, attempting
the anchored pattern at each line start (`atLS`). -/
def searchSourceLineAux : Bool → List Char → Option (List Char)
  | _, [] => none
  | atLS, c :: rest =>
    if atLS then
      match matchSourceAt (c :: rest) with
      | some u => some u
      | none => searchSourceLineAux (c = '\n') rest
    else searchSourceLineAux (c = '\n') rest

def searchSourceLine (cs : List Char) : Option (List Char) :=
  searchSourceLineAux true cs

/-- Match `Source:\s*https?://\S+\s*\n?` at the current position for the
`re.sub` removal: returns `(consumed, rest)`.  After the URL the greedy
`\s*` consumes the whole following whitespace run (so the optional `\n?`
adds nothing). -/
def matchSourceLineFullAt (cs : List Char) : Option (List Char × List Char) :=
  match matchCI "source:".toList cs with
  | none => none
  | some (m1, r1) =>
    let w1 := r1.takeWhile isPySpace
    let r2 := r1.dropWhile isPySpace
    match matchUrl r2 with
    | some (u, r3) =>
      let w2 := r3.takeWhile isPySpace
      let r4 := r3.dropWhile isPySpace
      some (m1 ++ w1 ++ u ++ w2, r4)
    | none => none

/-- Model of the removal of the pattern `^Source:\s*https?://\S+\s*\n?`
with MULTILINE and IGNORECASE (the re.sub call with an empty
replacement): remove every (non-overlapping, leftmost) match.  The
anchor `^` is checked against
positions of the original string, so after a removal the next position
is a line start exactly when the last consumed character was a newline.
The fuel argument only bounds the recursion; each step strictly shortens
the input, so `length + 1` is always sufficient. -/
def subSourceLinesAux : Nat → Bool → List Char → List Char
  | 0, _, cs => cs
  | _ + 1, _, [] => []
  | n + 1, atLS, c :: rest =>
    if atLS then
      match matchSourceLineFullAt (c :: rest) with
      | some (consumed, r) => subSourceLinesAux n (consumed.getLast? == some '\n') r
      | none => c :: subSourceLinesAux n (c = '\n') rest
    else c :: subSourceLinesAux n (c = '\n') rest

def subSourceLines (cs : List Char) : List Char :=
  subSourceLinesAux (cs.length + 1) true cs

/-- Match `<<\s*Source\s*>>\s*\n?(https?://\S+)` at the current
position, returning group 1. -/
def matchTemplateSourceAt (cs : List Char) : Option (List Char) :=
  match matchCI "<<".toList cs with
  | none => none
  | some (_, r1) =>
    match matchCI "source".toList (r1.dropWhile isPySpace) with
    | none => none
    | some (_, r3) =>
      match matchCI ">>".toList (r3.dropWhile isPySpace) with
      | none => none
      | some (_, r5) =>
        match matchUrl (r5.dropWhile isPySpace) with
        | some (u, _) => some u
        | none => none

/-- Model of the search for the pattern
`<<\s*Source\s*>>\s*\n?(https?://\S+)` with IGNORECASE: unanchored
leftmost search. -/
def searchTemplateSource : List Char → Option (List Char)
  | [] => none
  | c :: rest =>
    match matchTemplateSourceAt (c :: rest) with
    | some u => some u
    | none => searchTemplateSource rest

/-! ## `ai.parse_card_content` -/

/-- The working text after the explicit `Source:` line extraction of
`ai.parse_card_content` (lines 96-100): if the search matches, the
`re.sub` removal is applied, otherwise the content is unchanged. -/
def workingChars (content : List Char) : List Char :=
  match searchSourceLine content with
  | some _ => subSourceLines content
  | none => content

def workingText (content : String) : String :=
  (workingChars content.toList).asString

/-- The `source_url` computed by `ai.parse_card_content`: the explicit
`Source:` line (group stripped) when it matches, otherwise the templated
`<< Source >>` URL searched in the working text (lines 92-105). -/
def parsedSourceChars (cs : List Char) : Option String :=
  match searchSourceLine cs with
  | some u => some ((pyStripList u).asString)
  | none =>
    match searchTemplateSource (workingChars cs) with
    | some u => some ((pyStripList u).asString)
    | none => none

/-- Embedding of `ai.parse_card_content` (ai.py lines 81-125): source
extraction, then split on the first `---` (question stripped of leading
`#` and whitespace), else the template-card branch, else first line /
rest. -/
def parse_card_content (content : String) : Option (String × String × Option String) :=
  if (splitFirst dashes (workingChars content.toList)).isSome then
    match pyGetParts dashes (workingChars content.toList) with
    | some (p0, p1) =>
      some ((pyStripList (pyLstripHash (pyStripList p0))).asString,
            (pyStripList p1).asString,
            parsedSourceChars content.toList)
    | none => none
  else if (splitFirst ltlt (workingChars content.toList)).isSome
        && (splitFirst gtgt (workingChars content.toList)).isSome then
    some ((workingChars content.toList).asString, "", parsedSourceChars content.toList)
  else
    match pyGetParts nlSep (pyStripList (workingChars content.toList)) with
    | some (l0, l1) =>
      some ((pyStripList (pyLstripHash l0)).asString,
            (pyStripList l1).asString,
            parsedSourceChars content.toList)
    | none => none

example : parse_card_content "Source: https://x.test/a\nQ\n---\nA"
    = some ("Q", "A", some "https://x.test/a") := by decide

example : parse_card_content "plain text fact" = some ("plain text fact", "", none) := by
  decide

/-! ## JSON values and `json.loads`, for `ai.evaluate_answer`

`ai.evaluate_answer` (ai.py lines 248-349) calls `json.loads` on the
provider text and then defaults the four verdict fields with
`result.get`.  There is no exception handler in that function nor in
the submit handler of app.py (lines 638-675), so a parse failure or a
transport failure propagates.  `json.loads` is modelled by a
recursive-descent parser for JSON (numbers kept as their lexemes, since
no claim depends on float arithmetic); a parse failure is `none` and
models the raised `JSONDecodeError`. -/

inductive Json where
  | null
  | bool (b : Bool)
  | num (lexeme : String)
  | str (s : String)
  | arr (elems : List Json)
  | obj (fields : List (String × Json))
deriving Repr

def lbrace : Char := Char.ofNat 123
def rbrace : Char := Char.ofNat 125

def isJsonWs (c : Char) : Bool := c = ' ' || c = '\t' || c = '\n' || c = '\r'

def skipWs (cs : List Char) : List Char := cs.dropWhile isJsonWs

def isDigitCh (c : Char) : Bool := '0' ≤ c && c ≤ '9'

def isHexCh (c : Char) : Bool :=
  isDigitCh c || ('a' ≤ c && c ≤ 'f') || ('A' ≤ c && c ≤ 'F')

def hexVal (c : Char) : Nat :=
  if isDigitCh c then c.toNat - '0'.toNat
  else if 'a' ≤ c && c ≤ 'f' then c.toNat - 'a'.toNat + 10
  else if 'A' ≤ c && c ≤ 'F' then c.toNat - 'A'.toNat + 10
  else 0

def escChar (e : Char) : Option Char :=
  if e = '"' then some '"'
  else if e = '\\' then some '\\'
  else if e = '/' then some '/'
  else if e = 'b' then some '\x08'
  else if e = 'f' then some '\x0c'
  else if e = 'n' then some '\n'
  else if e = 'r' then some '\r'
  else if e = 't' then some '\t'
  else none

/-- Body of a JSON string after the opening quote: decoded characters
and the rest after the closing quote.  Unescaped control characters are
rejected (strict `json.loads`). -/
def parseJsonStringBody : Nat → List Char → Option (List Char × List Char)
  | 0, _ => none
  | n + 1, cs =>
    match cs with
    | [] => none
    | c :: rest =>
      if c = '"' then some ([], rest)
      else if c = '\\' then
        match rest with
        | [] => none
        | e :: rest2 =>
          if e = 'u' then
            match rest2 with
            | h1 :: h2 :: h3 :: h4 :: rest3 =>
              if isHexCh h1 && isHexCh h2 && isHexCh h3 && isHexCh h4 then
                match parseJsonStringBody n rest3 with
                | some (cs2, r) =>
                  some (Char.ofNat
                    (((hexVal h1 * 16 + hexVal h2) * 16 + hexVal h3) * 16 + hexVal h4)
                      :: cs2, r)
                | none => none
              else none
            | _ => none
          else
            match escChar e with
            | some ch =>
              match parseJsonStringBody n rest2 with
              | some (cs2, r) => some (ch :: cs2, r)
              | none => none
            | none => none
      else if c.toNat < 32 then none
      else
        match parseJsonStringBody n rest with
        | some (cs2, r) => some (c :: cs2, r)
        | none => none

/-- Optional exponent after a numeric lexeme. -/
def parseExpPart (lexeme : List Char) (cs : List Char) : Option (Json × List Char) :=
  match cs with
  | [] => some (Json.num lexeme.asString, [])
  | e :: r =>
    if e = 'e' || e = 'E' then
      match r with
      | '+' :: rr =>
        let ed := rr.takeWhile isDigitCh
        let r3 := rr.dropWhile isDigitCh
        if ed.isEmpty then none else some (Json.num ((lexeme ++ e :: '+' :: ed).asString), r3)
      | '-' :: rr =>
        let ed := rr.takeWhile isDigitCh
        let r3 := rr.dropWhile isDigitCh
        if ed.isEmpty then none else some (Json.num ((lexeme ++ e :: '-' :: ed).asString), r3)
      | _ =>
        let ed := r.takeWhile isDigitCh
        let r3 := r.dropWhile isDigitCh
        if ed.isEmpty then none else some (Json.num ((lexeme ++ e :: ed).asString), r3)
    else some (Json.num lexeme.asString, cs)

/-- JSON number at the current position (leading zeros rejected;
`Infinity` and `-Infinity` accepted as the Python `json.loads` does). -/
def parseJsonNum (cs : List Char) : Option (Json × List Char) :=
  match cs with
  | '-' :: cs1 =>
    match cs1 with
    | 'I' :: r =>
      if "nfinity".toList.isPrefixOf r then some (Json.num "-Infinity", r.drop 7) else none
    | _ =>
      let intDigits := cs1.takeWhile isDigitCh
      let cs2 := cs1.dropWhile isDigitCh
      if intDigits.isEmpty then none
      else if intDigits.length > 1 && intDigits.head? == some '0' then none
      else
        match cs2 with
        | '.' :: r =>
          let fd := r.takeWhile isDigitCh
          let cs3 := r.dropWhile isDigitCh
          if fd.isEmpty then none
          else parseExpPart ('-' :: intDigits ++ '.' :: fd) cs3
        | _ => parseExpPart ('-' :: intDigits) cs2
  | _ =>
    let intDigits := cs.takeWhile isDigitCh
    let cs2 := cs.dropWhile isDigitCh
    if intDigits.isEmpty then none
    else if intDigits.length > 1 && intDigits.head? == some '0' then none
    else
      match cs2 with
      | '.' :: r =>
        let fd := r.takeWhile isDigitCh
        let cs3 := r.dropWhile isDigitCh
        if fd.isEmpty then none
        else parseExpPart (intDigits ++ '.' :: fd) cs3
      | _ => parseExpPart intDigits cs2

mutual

/-- A JSON value at the current position (leading whitespace allowed). -/
def parseJsonVal : Nat → List Char → Option (Json × List Char)
  | 0, _ => none
  | n + 1, cs0 =>
    match skipWs cs0 with
    | [] => none
    | c :: rest =>
      if c = '"' then
        match parseJsonStringBody n rest with
        | some (chars, r) => some (Json.str chars.asString, r)
        | none => none
      else if c = lbrace then
        match skipWs rest with
        | [] => none
        | c2 :: rest2 =>
          if c2 = rbrace then some (Json.obj [], rest2)
          else
            match parseJsonObjFields n (c2 :: rest2) with
            | some (fs, r) => some (Json.obj fs, r)
            | none => none
      else if c = '[' then
        match skipWs rest with
        | [] => none
        | c2 :: rest2 =>
          if c2 = ']' then some (Json.arr [], rest2)
          else
            match parseJsonArrElems n (c2 :: rest2) with
            | some (vs, r) => some (Json.arr vs, r)
            | none => none
      else if c = 't' then
        if "rue".toList.isPrefixOf rest then some (Json.bool true, rest.drop 3) else none
      else if c = 'f' then
        if "alse".toList.isPrefixOf rest then some (Json.bool false, rest.drop 4) else none
      else if c = 'n' then
        if "ull".toList.isPrefixOf rest then some (Json.null, rest.drop 3) else none
      else if c = 'N' then
        if "aN".toList.isPrefixOf rest then some (Json.num "NaN", rest.drop 2) else none
      else if c = 'I' then
        if "nfinity".toList.isPrefixOf rest then some (Json.num "Infinity", rest.drop 7)
        else none
      else if c = '-' || isDigitCh c then parseJsonNum (c :: rest)
      else none

/-- Fields of a JSON object, positioned at the opening quote of a key. -/
def parseJsonObjFields : Nat → List Char → Option (List (String × Json) × List Char)
  | 0, _ => none
  | n + 1, cs =>
    match cs with
    | '"' :: rest =>
      match parseJsonStringBody n rest with
      | some (kcs, r1) =>
        match skipWs r1 with
        | ':' :: r2 =>
          match parseJsonVal n r2 with
          | some (v, r3) =>
            match skipWs r3 with
            | ',' :: r4 =>
              match parseJsonObjFields n (skipWs r4) with
              | some (fs, r5) => some ((kcs.asString, v) :: fs, r5)
              | none => none
            | c2 :: r4 =>
              if c2 = rbrace then some ([(kcs.asString, v)], r4) else none
            | [] => none
          | none => none
        | _ => none
      | none => none
    | _ => none

/-- Elements of a JSON array, positioned at the first element. -/
def parseJsonArrElems : Nat → List Char → Option (List Json × List Char)
  | 0, _ => none
  | n + 1, cs =>
    match parseJsonVal n cs with
    | some (v, r1) =>
      match skipWs r1 with
      | ',' :: r2 =>
        match parseJsonArrElems n r2 with
        | some (vs, r3) => some (v :: vs, r3)
        | none => none
      | c2 :: r2 => if c2 = ']' then some ([v], r2) else none
      | [] => none
    | none => none

end

/-- Model of `json.loads`: parse one JSON document, allowing trailing
whitespace only.  A `none` result models a raised `JSONDecodeError`. -/
def jsonParse (s : String) : Option Json :=
  match parseJsonVal (8 * s.length + 32) s.toList with
  | some (v, rest) => if (skipWs rest).isEmpty then some v else none
  | none => none

example : jsonParse "" = none := rfl
example : jsonParse "not json" = none := rfl
example : jsonParse "\x7b\x7d" = some (Json.obj []) := rfl
example : jsonParse "\x7b\"is_correct\": true, \"score\": 0.8\x7d"
    = some (Json.obj [("is_correct", Json.bool true), ("score", Json.num "0.8")]) := rfl

/-! ## `ai.evaluate_answer` (ai.py lines 248-349) -/

/-- The verdict dictionary returned by `ai.evaluate_answer`, with each
value kept as the raw JSON value (or the Python default, written as its
JSON counterpart: `False` as `bool false`, `0.0` as `num "0.0"`,
`None` as `null`). -/
structure VerdictV where
  is_correct : Json
  score : Json
  feedback : Json
  follow_up : Json
deriving Repr

def default_feedback : String := "Unable to evaluate."

/-- Python `dict` lookup for a dict built by `json.loads` from an
object literal: duplicate keys are overwritten in order, so the last
occurrence wins. -/
def objGetLast (fields : List (String × Json)) (key : String) : Option Json :=
  (fields.reverse.find? (fun p => p.1 == key)).map (fun p => p.2)

/-- Embedding of `ai.evaluate_answer` from the provider response onward (lines
320-349): the provider/transport call may raise (`Except.error`),
`json.loads` may raise (`none` from `jsonParse`), `result.get` raises
`AttributeError` unless the result is a dict, and otherwise each of the
four fields is defaulted with `result.get`.  None of these exceptions
is caught in `evaluate_answer` or in the submit handler of app.py
(lines 638-675). -/
def evaluate_answer (providerResponse : Except PyExc String) : Except PyExc VerdictV :=
  match providerResponse with
  | Except.error e => Except.error e
  | Except.ok text =>
    match jsonParse text with
    | none => Except.error PyExc.jsonDecodeError
    | some result =>
      match result with
      | Json.obj fields =>
        Except.ok
          { is_correct := (objGetLast fields "is_correct").getD (Json.bool false)
            score := (objGetLast fields "score").getD (Json.num "0.0")
            feedback := (objGetLast fields "feedback").getD (Json.str default_feedback)
            follow_up := (objGetLast fields "follow_up").getD Json.null }
      | _ => Except.error PyExc.attributeError

example : evaluate_answer (Except.ok "not json") = Except.error PyExc.jsonDecodeError := rfl
example : evaluate_answer (Except.ok "\x7b\x7d")
    = Except.ok ⟨Json.bool false, Json.num "0.0", Json.str default_feedback, Json.null⟩ := rfl

/-! ## The `mochi` module (src/mochi.py) -/

/-- The module-level names defined by src/mochi.py (imports, the one
constant, and every function definition, lines 1-345).  There is no
`review_card` among them. -/
def mochiModuleAttrs : List String :=
  ["httpx", "re", "b64encode", "Optional", "BASE_URL",
   "_get_auth_header", "_get_headers", "validate_api_key", "get_decks",
   "get_due_cards", "get_cards_by_deck", "get_card", "create_card",
   "update_card_content", "build_deck_tree", "get_deck_display_name",
   "get_attachment", "resolve_card_images"]

/-- Python attribute access `mochi.<name>` followed by the call: a
missing module attribute raises `AttributeError`. -/
def mochiCall (name : String) : Except PyExc Unit :=
  if name ∈ mochiModuleAttrs then Except.ok () else Except.error PyExc.attributeError

/-! ## `start_new_card` (app.py lines 421-463)

Card initialization: parse the resolved content, pre-load the source
content from the session cache when the URL is already cached, then
call the Gateway rephrase.  The rephrase call (lines 449-457) has no
exception handler, so a Gateway failure propagates and aborts the
setup; the later resets (history, evaluation, follow-up count, lines
459-463) then never run. -/

/-- Python dict as an association list; insertion prepends, lookup
takes the newest binding. -/
def cacheLookup (cache : List (String × String)) (url : String) : Option String :=
  (cache.find? (fun p => p.1 == url)).map (fun p => p.2)

structure CardSetup where
  original_question : String
  original_answer : String
  source_url : Option String
  source_content : Option String
  use_source : Bool
  rephrased_question : String
  conversation_history_cleared : Bool
  follow_up_count : Nat
deriving DecidableEq, Repr

def start_new_card (resolved_content : String) (source_cache : List (String × String))
    (rephraseResult : Except PyExc String) : Except PyExc CardSetup :=
  match parse_card_content resolved_content with
  | none => Except.error PyExc.runtimeError
  | some (q, a, src) =>
    let scus : Option String × Bool :=
      match src with
      | some url =>
        if url ≠ "" then
          match cacheLookup source_cache url with
          | some c => (some c, true)
          | none => (none, false)
        else (none, false)
      | none => (none, false)
    match rephraseResult with
    | Except.error e => Except.error e
    | Except.ok reph =>
      Except.ok
        { original_question := q, original_answer := a, source_url := src
          source_content := scus.1, use_source := scus.2
          rephrased_question := reph
          conversation_history_cleared := true, follow_up_count := 0 }

example : start_new_card "Q\n---\nA" [] (Except.error PyExc.transportError)
    = Except.error PyExc.transportError := rfl

/-! ## The review-session state machine (src/app.py)

The per-session fields of `st.session_state` that drive the review
flow, and one step function per user-visible action.  The guard of
each action is the condition under which app.py reaches the corresponding
handler (widget rendered and clicked, or voice command recognized); an
action whose guard fails leaves the state unchanged. -/

/-- Values of `st.session_state.review_state` reachable during a
session (app.py line 101; the legacy value "answering" is never
assigned). -/
inductive RState where
  | question
  | followUp
  | evaluating
  | complete
deriving DecidableEq, Repr

/-- The fields of the stored evaluation dict that the session logic
reads: `is_correct` truthiness and `follow_up` (line 720-721). -/
structure EngineVerdict where
  is_correct : Bool
  follow_up : Option String
deriving DecidableEq, Repr

/-- One entry of `st.session_state.conversation_history`
(app.py lines 667-671). -/
structure Turn where
  question : String
  user_answer : String
  evaluation : EngineVerdict
deriving DecidableEq, Repr

structure Engine where
  review_state : RState
  current_card_index : Nat
  num_cards : Nat
  follow_up_count : Nat
  conversation_history : List Turn
  current_evaluation : Option EngineVerdict
  rephrased_question : String
  /-- successful `mochi.review_card` calls (card index, remembered);
  appended only when the call does not raise. -/
  outcome_log : List (Nat × Bool)
deriving DecidableEq, Repr

/-- The constant `max_follow_ups` (app.py line 722). -/
def max_follow_ups : Nat := 3

inductive Op where
  /-- the `start_new_card()` trigger at line 485-487, run when
  `rephrased_question` is empty; carries the rephrased text the
  Gateway returned. -/
  | initCard (rephrased : String)
  /-- the submit handler (lines 638-675) with the verdict the
  evaluation produced. -/
  | submitAnswer (text : String) (verdict : EngineVerdict)
  /-- the Continue Discussion button (lines 834-839). -/
  | continueButton
  /-- the voice `continue` pending action (lines 753-755, 776-783). -/
  | voiceContinue
  /-- the Got it! button (lines 868-880). -/
  | gotIt
  /-- the Again button (lines 883-895). -/
  | again
  /-- the Skip button on the evaluation screen (lines 898-900). -/
  | skipEval
  /-- the voice `remembered` pending action (lines 744-746, 784-807). -/
  | voiceRemembered
  /-- the voice `forgot` pending action (lines 747-749, 808-831). -/
  | voiceForgot
  /-- the voice `skip`/`next` pending action (lines 750-752, 762-775). -/
  | voiceSkipEval
  /-- the Skip button / voice skip while answering (lines 606-617,
  623-636). -/
  | skipAnswering
deriving DecidableEq, Repr

/-- Embedding of `move_to_next` (lines 849-863) and the identical advance blocks of
the voice pending actions: next card, clear rephrasing, history and
follow-up depth, and complete when the queue is exhausted.
`current_evaluation` is left as is by the source. -/
def advanceCard (s : Engine) : Engine :=
  let idx := s.current_card_index + 1
  { s with
    current_card_index := idx
    rephrased_question := ""
    review_state := if s.num_cards ≤ idx then RState.complete else RState.question
    conversation_history := []
    follow_up_count := 0 }

/-- The question evaluated against on submit (lines 643-647): the
pending follow-up in the follow-up state, else the rephrased question. -/
def currentQuestion (s : Engine) : String :=
  if s.review_state = RState.followUp then
    match s.current_evaluation with
    | some e => e.follow_up.getD s.rephrased_question
    | none => s.rephrased_question
  else s.rephrased_question

/-- The outcome-recording attempt shared by Got it!/Again and the voice
remembered/forgot actions: `mochi.review_card(...)` inside
`try/except` (lines 787-794, 811-818, 870-878, 885-893).  The call
raises `AttributeError` (no such attribute in src/mochi.py), the
handler catches it, and nothing is appended to the log. -/
def recordOutcome (s : Engine) (remembered : Bool) : Engine :=
  match mochiCall "review_card" with
  | Except.ok _ =>
    { s with outcome_log := s.outcome_log ++ [(s.current_card_index, remembered)] }
  | Except.error _ => s

def step (s : Engine) (op : Op) : Engine :=
  match op with
  | Op.initCard reph =>
    if (s.review_state = RState.question ∨ s.review_state = RState.followUp)
        ∧ s.rephrased_question = "" then
      { s with rephrased_question := reph, conversation_history := []
               current_evaluation := none, follow_up_count := 0 }
    else s
  | Op.submitAnswer text v =>
    if (s.review_state = RState.question ∨ s.review_state = RState.followUp)
        ∧ s.rephrased_question ≠ "" ∧ text ≠ "" then
      { s with
        conversation_history :=
          s.conversation_history ++ [⟨currentQuestion s, text, v⟩]
        current_evaluation := some v
        review_state := RState.evaluating }
    else s
  | Op.continueButton =>
    match s.current_evaluation with
    | some e =>
      if s.review_state = RState.evaluating ∧ optTruthy e.follow_up = true
          ∧ e.is_correct = false ∧ s.follow_up_count < max_follow_ups then
        { s with follow_up_count := s.follow_up_count + 1
                 review_state := RState.followUp }
      else s
    | none => s
  | Op.voiceContinue =>
    match s.current_evaluation with
    | some e =>
      if s.review_state = RState.evaluating ∧ optTruthy e.follow_up = true then
        { s with follow_up_count := s.follow_up_count + 1
                 review_state := RState.followUp }
      else s
    | none => s
  | Op.gotIt =>
    if s.review_state = RState.evaluating then advanceCard (recordOutcome s true) else s
  | Op.again =>
    if s.review_state = RState.evaluating then advanceCard (recordOutcome s false) else s
  | Op.skipEval =>
    if s.review_state = RState.evaluating then advanceCard s else s
  | Op.voiceRemembered =>
    if s.review_state = RState.evaluating then advanceCard (recordOutcome s true) else s
  | Op.voiceForgot =>
    if s.review_state = RState.evaluating then advanceCard (recordOutcome s false) else s
  | Op.voiceSkipEval =>
    if s.review_state = RState.evaluating then advanceCard s else s
  | Op.skipAnswering =>
    if s.review_state = RState.question ∨ s.review_state = RState.followUp then
      let idx := s.current_card_index + 1
      { s with
        current_card_index := idx
        rephrased_question := ""
        review_state := if s.num_cards ≤ idx then RState.complete else RState.question }
    else s

def runOps (s : Engine) (ops : List Op) : Engine := ops.foldl step s

/-- The submit gate of app.py: the Submit button is disabled on a falsy
`user_answer` (line 601) and the handler is guarded by
`if submit and user_answer:` (line 638); both are the Python string
truthiness test.  The returned flag records whether
`ai.evaluate_answer` is invoked. -/
def submitHandler (s : Engine) (text : String) (v : EngineVerdict) : Engine × Bool :=
  if (s.review_state = RState.question ∨ s.review_state = RState.followUp)
      ∧ s.rephrased_question ≠ "" ∧ text ≠ "" then
    (step s (Op.submitAnswer text v), true)
  else (s, false)

/-! ## The source-context cache (app.py lines 440-446, 515-533) -/

structure SrcState where
  source_cache : List (String × String)
  source_content : Option String
  use_source : Bool
  source_url : Option String
deriving DecidableEq, Repr

inductive SrcOp where
  /-- the Use Source Context toggle handler with the new toggle value
  and the result an underlying fetch would produce
  (`ai.fetch_source_content` returns text or `None`). -/
  | toggle (newVal : Bool) (fetchResult : Option String)
  /-- the cache pre-load in `start_new_card` for the source URL of the
  next card (lines 440-446). -/
  | startCard (url : Option String)
deriving DecidableEq, Repr

/-- One cache-machine step; the second component is `some url` exactly
when an underlying fetch was issued. -/
def srcStep (s : SrcState) : SrcOp → SrcState × Option String
  | SrcOp.toggle v fetchResult =>
    match s.source_url with
    | none => (s, none)
    | some url =>
      if v = s.use_source then (s, none)
      else
        let s1 : SrcState := { s with use_source := v }
        if v && !(optTruthy s.source_content) then
          match cacheLookup s.source_cache url with
          | some c => ({ s1 with source_content := some c }, none)
          | none =>
            match fetchResult with
            | some c =>
              if c ≠ "" then
                ({ s1 with source_content := some c
                           source_cache := (url, c) :: s.source_cache }, some url)
              else (s1, some url)
            | none => (s1, some url)
        else (s1, none)
  | SrcOp.startCard u =>
    match u with
    | some url =>
      if url ≠ "" then
        match cacheLookup s.source_cache url with
        | some c =>
          ({ s with source_url := u, source_content := some c, use_source := true }, none)
        | none =>
          ({ s with source_url := u, source_content := none, use_source := false }, none)
      else ({ s with source_url := u, source_content := none, use_source := false }, none)
    | none => ({ s with source_url := none, source_content := none, use_source := false }, none)

def srcRun (s : SrcState) : List SrcOp → SrcState × List String
  | [] => (s, [])
  | op :: ops =>
    match srcStep s op with
    | (s1, f) =>
      match srcRun s1 ops with
      | (s2, fs) => (s2, (match f with | some u => [u] | none => []) ++ fs)

/-- A toggle op whose would-be fetch result is truthy (so the fetch, if
issued, succeeds); `startCard` issues no fetch. -/
def toggleFetchOk : SrcOp → Bool
  | SrcOp.toggle _ fr => optTruthy fr
  | SrcOp.startCard _ => true

/-! ## Voice-command classification (app.py lines 580-589, 740-755) -/

inductive AnswerVoiceCmd where
  | skipCmd
  | continueCmd
  | autoSubmit (text : String)
deriving DecidableEq, Repr

/-- Classification of transcribed speech while answering (lines
580-589): exact membership of `transcribed.lower().strip()` in the
fixed phrase lists, else auto-submit of the transcription verbatim. -/
def classifyAnswerVoice (transcribed : String) : AnswerVoiceCmd :=
  let l := pyStrip (pyLower transcribed)
  if l ∈ ["skip", "skip card", "next card", "pass"] then AnswerVoiceCmd.skipCmd
  else if l ∈ ["next", "continue", "go on"] then AnswerVoiceCmd.continueCmd
  else AnswerVoiceCmd.autoSubmit transcribed

inductive NavCmd where
  | remembered
  | forgot
  | skipCmd
  | continueCmd
  | noAction
deriving DecidableEq, Repr

/-- Classification of transcribed speech on the evaluation screen
(lines 740-755); `continue` additionally requires a pending follow-up,
and anything else triggers no action. -/
def classifyNavVoice (transcribed : String) (followUpPresent : Bool) : NavCmd :=
  let l := pyStrip (pyLower transcribed)
  if l ∈ ["got it", "good", "correct", "remembered", "yes", "next"] then NavCmd.remembered
  else if l ∈ ["again", "forgot", "wrong", "no", "repeat"] then NavCmd.forgot
  else if l ∈ ["skip", "pass", "skip card"] then NavCmd.skipCmd
  else if l ∈ ["continue", "follow up", "follow-up", "more", "go on"] then
    if followUpPresent then NavCmd.continueCmd else NavCmd.noAction
  else NavCmd.noAction

example : classifyAnswerVoice "skip" = AnswerVoiceCmd.skipCmd := by decide
example : classifyAnswerVoice "I will skip the details"
    = AnswerVoiceCmd.autoSubmit "I will skip the details" := by decide

/-! ## Helper lemmas about the parser -/

theorem pyGetParts_found {sep b a cs : List Char}
    (h : splitFirst sep cs = some (b, a)) : pyGetParts sep cs = some (b, a) := by
  simp [pyGetParts, pySplitOnce, h]

theorem pyGetParts_none {sep cs : List Char}
    (h : splitFirst sep cs = none) : pyGetParts sep cs = some (cs, []) := by
  simp [pyGetParts, pySplitOnce, h]

/-- The function `parse_card_content` always returns a result (each
guarded indexing of the source is safe). -/
theorem parse_total (content : String) : (parse_card_content content).isSome = true := by
  unfold parse_card_content
  simp only [String.toList]
  cases h1 : splitFirst dashes (workingChars content.data) with
  | none =>
    cases h2 : ((splitFirst ltlt (workingChars content.data)).isSome
        && (splitFirst gtgt (workingChars content.data)).isSome) with
    | true => simp [h1, h2]
    | false =>
      cases h3 : splitFirst nlSep (pyStripList (workingChars content.data)) with
      | none => simp [h1, h2, pyGetParts_none h3]
      | some la => simp [h1, h2, pyGetParts_found (b := la.1) (a := la.2) h3]
  | some ba => simp [h1, pyGetParts_found (b := ba.1) (a := ba.2) h1]

/-- The source component of every `parse_card_content` result is
`parsedSourceChars` of the input. -/
theorem parse_source (content : String) :
    (parse_card_content content).map (fun r => r.2.2)
      = some (parsedSourceChars content.toList) := by
  unfold parse_card_content
  simp only [String.toList]
  cases h1 : splitFirst dashes (workingChars content.data) with
  | none =>
    cases h2 : ((splitFirst ltlt (workingChars content.data)).isSome
        && (splitFirst gtgt (workingChars content.data)).isSome) with
    | true => simp [h1, h2]
    | false =>
      cases h3 : splitFirst nlSep (pyStripList (workingChars content.data)) with
      | none => simp [h1, h2, pyGetParts_none h3]
      | some la => simp [h1, h2, pyGetParts_found (b := la.1) (a := la.2) h3]
  | some ba => simp [h1, pyGetParts_found (b := ba.1) (a := ba.2) h1]

theorem workingText_toList (content : String) :
    (workingText content).toList = workingChars content.toList := rfl

/-! ## Spec-side split functions (modelled from the claim wording)

The claims C5 describes the question as the text before the first
`---` of the content with leading `#` and surrounding whitespace
stripped, and the answer as the stripped text after it.  These
definitions follow that wording so the claim can be compared with the
code. -/

def specSplitQuestion (s : String) : String :=
  match splitFirst dashes s.toList with
  | some (b, _) => (pyStripList (pyLstripHash (pyStripList b))).asString
  | none => (pyStripList (pyLstripHash (pyStripList s.toList))).asString

def specSplitAnswer (s : String) : String :=
  match splitFirst dashes s.toList with
  | some (_, a) => (pyStripList a).asString
  | none => ""

/-- C5 as stated is false on the code: for raw content that carries an
explicit `Source:` line, the parser removes that line before splitting
on `---`, so the returned question is not the stripped text before the
first `---` of the raw content.  At the concrete input
`"Source: https://x.test/a\nQ\n---\nA"` (which contains `---`) the code
returns question `"Q"` while the claim demands
`"Source: https://x.test/a\nQ"`. -/
theorem C5_counterexample :
    (splitFirst dashes ("Source: https://x.test/a\nQ\n---\nA").toList).isSome = true
    ∧ parse_card_content "Source: https://x.test/a\nQ\n---\nA"
        = some ("Q", "A", some "https://x.test/a")
    ∧ specSplitQuestion "Source: https://x.test/a\nQ\n---\nA"
        = "Source: https://x.test/a\nQ"
    ∧ ("Q" : String) ≠ "Source: https://x.test/a\nQ" := by
  refine ⟨by decide, by decide, by decide, by decide⟩

/-- C5 (amended): for every content whose working text (the text after
the explicit `Source:`-line extraction and removal) contains `---`,
`parse_card_content` returns a question equal to the text before the
first `---` of the working text with leading `#` characters and
surrounding whitespace stripped, and an answer equal to the text after
it with surrounding whitespace stripped. -/
theorem C5_split_on_working_text (content : String)
    (h : (splitFirst dashes (workingChars content.toList)).isSome = true) :
    (parse_card_content content).map (fun r => (r.1, r.2.1))
      = some (specSplitQuestion (workingText content),
              specSplitAnswer (workingText content)) := by
  simp only [String.toList] at h
  obtain ⟨⟨b, a⟩, h1⟩ := Option.isSome_iff_exists.mp h
  unfold parse_card_content specSplitQuestion specSplitAnswer
  rw [workingText_toList]
  simp only [String.toList]
  simp [h1, pyGetParts_found h1]

/-- Witness for C5: the amended statement at the concrete input
`"Q\n---\nA"` (no source line, so the working text is the raw text). -/
theorem C5_witness :
    (parse_card_content "Q\n---\nA").map (fun r => (r.1, r.2.1))
      = some (specSplitQuestion (workingText "Q\n---\nA"),
              specSplitAnswer (workingText "Q\n---\nA")) :=
  C5_split_on_working_text "Q\n---\nA" (by decide)

/-- C6: an explicit line-start `Source: <url>` line is extracted
case-insensitively and removed from the working text before the
question/answer split; a mid-line `Source:` is not extracted; the
templated `<< Source >>` form is consulted only when the explicit form
is absent; and whenever the explicit search matches, the returned
source is exactly its stripped URL group. -/
theorem C6_source_extraction :
    parse_card_content "Source: https://x.test/a\nQ\n---\nA"
      = some ("Q", "A", some "https://x.test/a")
    ∧ parse_card_content "SOURCE: https://x.test/a\nQ\n---\nA"
      = some ("Q", "A", some "https://x.test/a")
    ∧ parse_card_content "intro Source: https://x.test/a\nQ\n---\nA"
      = some ("intro Source: https://x.test/a\nQ", "A", none)
    ∧ parse_card_content "Source: https://a.test/1\n<< Source >>\nhttps://b.test/2\n---\nA"
      = some ("<< Source >>\nhttps://b.test/2", "A", some "https://a.test/1")
    ∧ parse_card_content "<< Source >>\nhttps://b.test/2\nQ\n---\nA"
      = some ("<< Source >>\nhttps://b.test/2\nQ", "A", some "https://b.test/2")
    ∧ (∀ (content : String) (u : List Char),
        searchSourceLine content.toList = some u →
        (parse_card_content content).map (fun r => r.2.2)
          = some (some ((pyStripList u).asString))) := by
  refine ⟨by decide, by decide, by decide, by decide, by decide, ?_⟩
  intro content u hu
  simp only [String.toList] at hu
  rw [parse_source]
  simp [parsedSourceChars, hu]

/-- Witness for C6: the universal conjunct applied at a concrete
content with an explicit source line. -/
theorem C6_witness :
    (parse_card_content "Source: https://x.test/a\nQ\n---\nA").map (fun r => r.2.2)
      = some (some "https://x.test/a") :=
  C6_source_extraction.2.2.2.2.2 "Source: https://x.test/a\nQ\n---\nA"
    ("https://x.test/a".toList) (by decide)

/-- C7: `parse_card_content` is total — for every input it returns a
(question, answer, source) triple and never fails; in the degenerate
case the whole text is the question with an empty answer and no
source. -/
theorem C7_parse_total :
    (∀ content : String, (parse_card_content content).isSome = true)
    ∧ parse_card_content "plain text fact" = some ("plain text fact", "", none) := by
  exact ⟨parse_total, by decide⟩

/-- C2 as stated is false on the code: `ai.evaluate_answer` has no
exception handler, so a non-JSON provider response (or an empty one)
raises `JSONDecodeError` out of the function, and a provider/transport
failure propagates unchanged; the submit handler of app.py does not
catch either, so the session does not reach the evaluated state. -/
theorem C2_counterexample :
    evaluate_answer (Except.ok "not json") = Except.error PyExc.jsonDecodeError
    ∧ evaluate_answer (Except.ok "") = Except.error PyExc.jsonDecodeError
    ∧ evaluate_answer (Except.error PyExc.transportError)
        = Except.error PyExc.transportError :=
  ⟨rfl, rfl, rfl⟩

/-- C2 (amended): whenever the provider response parses as a JSON
object, `evaluate_answer` returns a verdict in which every missing
field is defaulted (`is_correct := false`, `score := 0.0`,
`feedback := "Unable to evaluate."`, `follow_up := None`); in
particular the empty object yields exactly the four defaults.  A
response that is not a JSON object, or a provider failure, instead
raises (the exception escapes to the caller). -/
theorem C2_field_defaults :
    (∀ (text : String) (fields : List (String × Json)),
        jsonParse text = some (Json.obj fields) →
        evaluate_answer (Except.ok text)
          = Except.ok
              { is_correct := (objGetLast fields "is_correct").getD (Json.bool false)
                score := (objGetLast fields "score").getD (Json.num "0.0")
                feedback := (objGetLast fields "feedback").getD (Json.str default_feedback)
                follow_up := (objGetLast fields "follow_up").getD Json.null })
    ∧ evaluate_answer (Except.ok "\x7b\x7d")
        = Except.ok ⟨Json.bool false, Json.num "0.0", Json.str default_feedback, Json.null⟩
    ∧ (∀ e : PyExc, evaluate_answer (Except.error e) = Except.error e) := by
  refine ⟨?_, rfl, fun e => rfl⟩
  intro text fields h
  simp [evaluate_answer, h]

/-- Witness for C2: the defaulting statement applied at the concrete
response text of an empty JSON object. -/
theorem C2_witness :
    evaluate_answer (Except.ok "\x7b\x7d")
      = Except.ok
          { is_correct := (objGetLast [] "is_correct").getD (Json.bool false)
            score := (objGetLast [] "score").getD (Json.num "0.0")
            feedback := (objGetLast [] "feedback").getD (Json.str default_feedback)
            follow_up := (objGetLast [] "follow_up").getD Json.null } :=
  C2_field_defaults.1 "\x7b\x7d" [] rfl

/-- C3 as stated is false on the code: `start_new_card` calls the
Gateway rephrase with no exception handler (app.py lines 449-457), so
a rephrase failure propagates and card setup does not complete — no
fallback to the original question, no warning. -/
theorem C3_counterexample :
    start_new_card "Q\n---\nA" [] (Except.error PyExc.transportError)
      = Except.error PyExc.transportError := rfl

/-- C3 (amended): a failing rephrase call makes `start_new_card`
propagate the exception unchanged (setup never completes), and setup
completes exactly when the rephrase call succeeds, presenting the
rephrased text the Gateway returned. -/
theorem C3_rephrase_failure_propagates :
    (∀ (content : String) (cache : List (String × String)) (e : PyExc),
        start_new_card content cache (Except.error e) = Except.error e)
    ∧ (∀ (content : String) (cache : List (String × String)) (r : String),
        (start_new_card content cache (Except.ok r)).map
            (fun st => (st.rephrased_question, st.follow_up_count))
          = Except.ok (r, 0)) := by
  constructor
  · intro content cache e
    obtain ⟨x, hx⟩ := Option.isSome_iff_exists.mp (parse_total content)
    obtain ⟨q, a, src⟩ := x
    simp [start_new_card, hx]
  · intro content cache r
    obtain ⟨x, hx⟩ := Option.isSome_iff_exists.mp (parse_total content)
    obtain ⟨q, a, src⟩ := x
    simp [start_new_card, hx, Except.map]

/-- C4: src/mochi.py defines no `review_card`, so the call
`mochi.review_card(...)` raises `AttributeError` in every
mark-remembered / mark-forgotten handler; each handler catches it, the
session still advances to the next card, and no review outcome is ever
recorded. -/
theorem C4_no_outcome_recording :
    "review_card" ∉ mochiModuleAttrs
    ∧ mochiCall "review_card" = Except.error PyExc.attributeError
    ∧ (∀ s : Engine, s.review_state = RState.evaluating →
        ((step s Op.gotIt).outcome_log = s.outcome_log
          ∧ (step s Op.gotIt).current_card_index = s.current_card_index + 1)
        ∧ ((step s Op.again).outcome_log = s.outcome_log
          ∧ (step s Op.again).current_card_index = s.current_card_index + 1)
        ∧ ((step s Op.voiceRemembered).outcome_log = s.outcome_log
          ∧ (step s Op.voiceRemembered).current_card_index = s.current_card_index + 1)
        ∧ ((step s Op.voiceForgot).outcome_log = s.outcome_log
          ∧ (step s Op.voiceForgot).current_card_index = s.current_card_index + 1)) := by
  have hmc : mochiCall "review_card" = Except.error PyExc.attributeError := rfl
  refine ⟨by decide, hmc, ?_⟩
  intro s hs
  simp [step, hs, advanceCard, recordOutcome, hmc]

/-- Witness for C4: the advance-without-recording statement at a
concrete evaluating state. -/
def c4State : Engine :=
  { review_state := RState.evaluating, current_card_index := 0, num_cards := 2
    follow_up_count := 1, conversation_history := [], current_evaluation := none
    rephrased_question := "Q", outcome_log := [] }

theorem C4_witness :
    (step c4State Op.gotIt).outcome_log = c4State.outcome_log
    ∧ (step c4State Op.gotIt).current_card_index = c4State.current_card_index + 1 :=
  (C4_no_outcome_recording.2.2 c4State (by decide)).1

/-! ## Follow-up depth (claim C1) -/

/-- Any single action other than the voice `continue` keeps the
follow-up depth within the configured maximum. -/
theorem step_count_le (s : Engine) (op : Op) (hop : op ≠ Op.voiceContinue)
    (h : s.follow_up_count ≤ max_follow_ups) :
    (step s op).follow_up_count ≤ max_follow_ups := by
  have hadv : ∀ t : Engine, (advanceCard t).follow_up_count = 0 := fun t => rfl
  cases op with
  | initCard r =>
    simp only [step]; split
    · exact Nat.zero_le _
    · exact h
  | submitAnswer t v =>
    simp only [step]; split
    · exact h
    · exact h
  | continueButton =>
    cases hce : s.current_evaluation with
    | none => simpa only [step, hce] using h
    | some e =>
      by_cases hg : s.review_state = RState.evaluating ∧ optTruthy e.follow_up = true
          ∧ e.is_correct = false ∧ s.follow_up_count < max_follow_ups
      · have hlt := hg.2.2.2
        simp only [step, hce, if_pos hg]
        exact hlt
      · simp only [step, hce, if_neg hg]
        exact h
  | voiceContinue => exact absurd rfl hop
  | gotIt =>
    simp only [step]; split
    · rw [hadv]; exact Nat.zero_le _
    · exact h
  | again =>
    simp only [step]; split
    · rw [hadv]; exact Nat.zero_le _
    · exact h
  | skipEval =>
    simp only [step]; split
    · rw [hadv]; exact Nat.zero_le _
    · exact h
  | voiceRemembered =>
    simp only [step]; split
    · rw [hadv]; exact Nat.zero_le _
    · exact h
  | voiceForgot =>
    simp only [step]; split
    · rw [hadv]; exact Nat.zero_le _
    · exact h
  | voiceSkipEval =>
    simp only [step]; split
    · rw [hadv]; exact Nat.zero_le _
    · exact h
  | skipAnswering =>
    simp only [step]; split
    · exact h
    · exact h

theorem runOps_count_le (s : Engine) (ops : List Op)
    (h : s.follow_up_count ≤ max_follow_ups) (hops : Op.voiceContinue ∉ ops) :
    (runOps s ops).follow_up_count ≤ max_follow_ups := by
  induction ops generalizing s with
  | nil => exact h
  | cons op rest ih =>
    have h1 : op ≠ Op.voiceContinue := fun he => hops (he ▸ List.mem_cons_self op rest)
    have h2 : Op.voiceContinue ∉ rest := fun hm => hops (List.mem_cons_of_mem _ hm)
    exact ih (step s op) (step_count_le s op h1 h) h2

/-- C1 as stated is false on the code: the voice `continue` path checks
only that a follow-up is pending, never the depth (app.py lines
753-755, 776-783), so a session driven by voice `continue` commands
pushes `follow_up_count` to 4, past the configured maximum of 3. -/
def c1Init : Engine :=
  { review_state := RState.question, current_card_index := 0, num_cards := 1
    follow_up_count := 0, conversation_history := [], current_evaluation := none
    rephrased_question := "", outcome_log := [] }

def c1Verdict : EngineVerdict := { is_correct := false, follow_up := some "Why?" }

def c1Trace : List Op :=
  [Op.initCard "Q1", Op.submitAnswer "a1" c1Verdict, Op.voiceContinue,
   Op.submitAnswer "a2" c1Verdict, Op.voiceContinue,
   Op.submitAnswer "a3" c1Verdict, Op.voiceContinue,
   Op.submitAnswer "a4" c1Verdict, Op.voiceContinue]

theorem C1_counterexample :
    (runOps c1Init c1Trace).follow_up_count = 4
    ∧ max_follow_ups < (runOps c1Init c1Trace).follow_up_count := by
  refine ⟨by decide, by decide⟩

/-- C1 (amended): without the voice `continue` action the follow-up
depth never exceeds the configured maximum of 3 (the Continue
Discussion button is guarded by `follow_up_count < 3`), and the depth
resets to 0 on every card advance and on the initialization of the
next card; only the voice `continue` path can push it past the
maximum. -/
theorem C1_depth_bound_and_reset :
    (∀ (s : Engine) (ops : List Op), s.follow_up_count ≤ max_follow_ups →
        Op.voiceContinue ∉ ops →
        (runOps s ops).follow_up_count ≤ max_follow_ups)
    ∧ (∀ s : Engine, s.review_state = RState.evaluating →
        (step s Op.gotIt).follow_up_count = 0
        ∧ (step s Op.again).follow_up_count = 0
        ∧ (step s Op.skipEval).follow_up_count = 0
        ∧ (step s Op.voiceRemembered).follow_up_count = 0
        ∧ (step s Op.voiceForgot).follow_up_count = 0
        ∧ (step s Op.voiceSkipEval).follow_up_count = 0)
    ∧ (∀ (s : Engine) (r : String), s.review_state = RState.question →
        s.rephrased_question = "" →
        (step s (Op.initCard r)).follow_up_count = 0) := by
  refine ⟨runOps_count_le, ?_, ?_⟩
  · intro s hs
    refine ⟨?_, ?_, ?_, ?_, ?_, ?_⟩ <;> simp [step, hs, advanceCard, recordOutcome]
  · intro s r h1 h2
    simp [step, h1, h2]

/-- Witness for C1: the amended statement at a concrete evaluating
state and a concrete voice-free trace. -/
def c1WitnessState : Engine :=
  { review_state := RState.evaluating, current_card_index := 0, num_cards := 2
    follow_up_count := 2, conversation_history := [], current_evaluation := some c1Verdict
    rephrased_question := "Q", outcome_log := [] }

theorem C1_witness :
    (runOps c1WitnessState [Op.gotIt]).follow_up_count ≤ max_follow_ups
    ∧ (step c1WitnessState Op.gotIt).follow_up_count = 0 :=
  ⟨C1_depth_bound_and_reset.1 c1WitnessState [Op.gotIt] (by decide) (by decide),
   (C1_depth_bound_and_reset.2.1 c1WitnessState (by decide)).1⟩

/-! ## Source-context cache (claim C8) -/

theorem cacheLookup_cons (cache : List (String × String)) (u0 c url : String) :
    cacheLookup ((u0, c) :: cache) url
      = if (u0 == url) = true then some c else cacheLookup cache url := by
  by_cases h : (u0 == url) = true <;> simp [cacheLookup, List.find?, h]

/-- Anything already cached stays cached across a step. -/
theorem srcStep_cache_preserved (s : SrcState) (op : SrcOp) (url : String)
    (h : (cacheLookup s.source_cache url).isSome = true) :
    (cacheLookup (srcStep s op).1.source_cache url).isSome = true := by
  cases op with
  | startCard u =>
    cases u with
    | none => simpa [srcStep] using h
    | some u0 =>
      by_cases he : u0 ≠ "" <;>
        cases hl : cacheLookup s.source_cache u0 <;> simpa [srcStep, he, hl] using h
  | toggle v fr =>
    cases hu : s.source_url with
    | none => simpa [srcStep, hu] using h
    | some u0 =>
      by_cases hv : v = s.use_source
      · simpa [srcStep, hu, hv] using h
      · by_cases hc : (v && !(optTruthy s.source_content)) = true
        · cases hl : cacheLookup s.source_cache u0 with
          | some c => simpa [srcStep, hu, hv, hc, hl] using h
          | none =>
            cases fr with
            | none => simpa [srcStep, hu, hv, hc, hl] using h
            | some c =>
              by_cases hce : c ≠ ""
              · simp only [srcStep, hu, if_neg hv, hc, if_true, hl, if_pos hce]
                rw [cacheLookup_cons]
                by_cases he : (u0 == url) = true <;> simp [he, h]
              · simpa [srcStep, hu, hv, hc, hl, hce] using h
        · simpa [srcStep, hu, hv, hc] using h

/-- No step fetches a URL that is already cached. -/
theorem srcStep_cached_no_fetch (s : SrcState) (op : SrcOp) (url : String)
    (h : (cacheLookup s.source_cache url).isSome = true) :
    (srcStep s op).2 ≠ some url := by
  cases op with
  | startCard u =>
    cases u with
    | none => simp [srcStep]
    | some u0 =>
      by_cases he : u0 ≠ "" <;>
        cases hl : cacheLookup s.source_cache u0 <;> simp [srcStep, he, hl]
  | toggle v fr =>
    cases hu : s.source_url with
    | none => simp [srcStep, hu]
    | some u0 =>
      by_cases hv : v = s.use_source
      · simp [srcStep, hu, hv]
      · by_cases hc : (v && !(optTruthy s.source_content)) = true
        · cases hl : cacheLookup s.source_cache u0 with
          | some c => simp [srcStep, hu, hv, hc, hl]
          | none =>
            intro hcontra
            have hne : u0 ≠ url := by
              intro he
              rw [he] at hl
              rw [hl] at h
              simp at h
            cases fr with
            | none =>
              simp only [srcStep, hu, if_neg hv, hc, if_true, hl] at hcontra
              exact hne (Option.some_injective _ hcontra)
            | some c =>
              by_cases hce : c ≠ ""
              · simp only [srcStep, hu, if_neg hv, hc, if_true, hl, if_pos hce] at hcontra
                exact hne (Option.some_injective _ hcontra)
              · simp only [srcStep, hu, if_neg hv, hc, if_true, hl, if_neg hce] at hcontra
                exact hne (Option.some_injective _ hcontra)
        · simp [srcStep, hu, hv, hc]

/-- A fetch that was issued with a truthy result leaves its URL
cached. -/
theorem srcStep_fetch_ok_caches (s : SrcState) (op : SrcOp) (url : String)
    (hok : toggleFetchOk op = true) (hf : (srcStep s op).2 = some url) :
    (cacheLookup (srcStep s op).1.source_cache url).isSome = true := by
  cases op with
  | startCard u =>
    exfalso
    cases u with
    | none => simp [srcStep] at hf
    | some u0 =>
      by_cases he : u0 ≠ "" <;>
        cases hl : cacheLookup s.source_cache u0 <;> simp [srcStep, he, hl] at hf
  | toggle v fr =>
    cases hu : s.source_url with
    | none => simp [srcStep, hu] at hf
    | some u0 =>
      by_cases hv : v = s.use_source
      · simp [srcStep, hu, hv] at hf
      · by_cases hc : (v && !(optTruthy s.source_content)) = true
        · cases hl : cacheLookup s.source_cache u0 with
          | some c => simp [srcStep, hu, hv, hc, hl] at hf
          | none =>
            cases fr with
            | none => simp [toggleFetchOk, optTruthy] at hok
            | some c =>
              have hce : c ≠ "" := by
                simpa [toggleFetchOk, optTruthy] using hok
              simp only [srcStep, hu, if_neg hv, hc, if_true, hl, if_pos hce] at hf ⊢
              have he : u0 = url := Option.some_injective _ hf
              rw [cacheLookup_cons]
              simp [he]
        · simp [srcStep, hu, hv, hc] at hf

/-- Once a URL is cached, a whole run issues no fetch for it. -/
theorem srcRun_cached_no_fetch (ops : List SrcOp) (s : SrcState) (url : String)
    (h : (cacheLookup s.source_cache url).isSome = true) :
    ((srcRun s ops).2).count url = 0 := by
  induction ops generalizing s with
  | nil => simp [srcRun]
  | cons op rest ih =>
    have hrest := ih (srcStep s op).1 (srcStep_cache_preserved s op url h)
    cases hf : (srcStep s op).2 with
    | none => simpa [srcRun, hf] using hrest
    | some u =>
      have hne : u ≠ url := by
        intro he
        exact srcStep_cached_no_fetch s op url h (he ▸ hf)
      simp [srcRun, hf, hrest, List.count_cons, hne]

/-- When every would-be fetch result in the trace is truthy, each URL
is fetched at most once. -/
theorem srcRun_fetch_le_one (ops : List SrcOp) (s : SrcState) (url : String)
    (hok : ∀ op ∈ ops, toggleFetchOk op = true) :
    ((srcRun s ops).2).count url ≤ 1 := by
  induction ops generalizing s with
  | nil => simp [srcRun]
  | cons op rest ih =>
    have hok1 : toggleFetchOk op = true := hok op (List.mem_cons_self op rest)
    have hokr : ∀ o ∈ rest, toggleFetchOk o = true :=
      fun o ho => hok o (List.mem_cons_of_mem _ ho)
    cases hf : (srcStep s op).2 with
    | none => simpa [srcRun, hf] using ih (srcStep s op).1 hokr
    | some u =>
      by_cases hu : u = url
      · subst hu
        have hcached := srcStep_fetch_ok_caches s op u hok1 hf
        have hrest := srcRun_cached_no_fetch rest (srcStep s op).1 u hcached
        simp [srcRun, hf, hrest, List.count_cons]
      · have := ih (srcStep s op).1 hokr
        simpa [srcRun, hf, List.count_cons, hu] using this

/-- C8: within one session, a cached URL is never fetched again (cache
hits, including repeated toggling and later cards with the same URL,
cause no network activity and return the stored content); when every
issued fetch succeeds, each distinct URL is fetched at most once; a
failed fetch caches nothing and leaves the content unset; and after a
failure, toggling off and on again retries the fetch. -/
theorem C8_cache_single_fetch :
    (∀ (s : SrcState) (ops : List SrcOp) (url : String),
        (cacheLookup s.source_cache url).isSome = true →
        ((srcRun s ops).2).count url = 0)
    ∧ (∀ (s : SrcState) (ops : List SrcOp) (url : String),
        (∀ op ∈ ops, toggleFetchOk op = true) →
        ((srcRun s ops).2).count url ≤ 1)
    ∧ (∀ (s : SrcState) (url c : String), url ≠ "" →
        cacheLookup s.source_cache url = some c →
        (srcStep s (SrcOp.startCard (some url))).1.source_content = some c
        ∧ (srcStep s (SrcOp.startCard (some url))).1.use_source = true
        ∧ (srcStep s (SrcOp.startCard (some url))).2 = none)
    ∧ (∀ (s : SrcState) (url : String),
        s.source_url = some url → s.use_source = false →
        optTruthy s.source_content = false →
        cacheLookup s.source_cache url = none →
        (srcStep s (SrcOp.toggle true none)).1.source_cache = s.source_cache
        ∧ (srcStep s (SrcOp.toggle true none)).1.source_content = s.source_content
        ∧ (srcStep s (SrcOp.toggle true none)).2 = some url)
    ∧ (∀ (s : SrcState) (url : String) (fr : Option String),
        s.source_url = some url → s.use_source = true →
        optTruthy s.source_content = false →
        cacheLookup s.source_cache url = none →
        (srcStep (srcStep s (SrcOp.toggle false none)).1 (SrcOp.toggle true fr)).2
          = some url) := by
  refine ⟨fun s ops url h => srcRun_cached_no_fetch ops s url h,
         fun s ops url h => srcRun_fetch_le_one ops s url h, ?_, ?_, ?_⟩
  · intro s url c he hl
    refine ⟨?_, ?_, ?_⟩ <;> simp [srcStep, he, hl]
  · intro s url h1 h2 h3 h4
    refine ⟨?_, ?_, ?_⟩ <;> simp [srcStep, h1, h2, h3, h4]
  · intro s url fr h1 h2 h3 h4
    have hstep1 : (srcStep s (SrcOp.toggle false none)).1
        = { s with use_source := false } := by
      simp [srcStep, h1, h2]
    rw [hstep1]
    cases fr with
    | none => simp [srcStep, h1, h3, h4]
    | some c =>
      by_cases hce : c ≠ "" <;> simp [srcStep, h1, h3, h4, hce]

/-- Witness for C8: the cached-URL and all-fetches-succeed statements at
concrete states and traces. -/
def c8Cached : SrcState :=
  { source_cache := [("https://x.test/a", "cached body")]
    source_content := none, use_source := false
    source_url := some "https://x.test/a" }

theorem C8_witness :
    ((srcRun c8Cached [SrcOp.toggle true none, SrcOp.toggle false none,
        SrcOp.toggle true none, SrcOp.startCard (some "https://x.test/a")]).2).count
        "https://x.test/a" = 0
    ∧ ((srcRun { c8Cached with source_cache := [] }
        [SrcOp.toggle true (some "body"), SrcOp.toggle false (some "body"),
         SrcOp.toggle true (some "body")]).2).count "https://x.test/a" ≤ 1 :=
  ⟨C8_cache_single_fetch.1 c8Cached _ "https://x.test/a" (by decide),
   C8_cache_single_fetch.2.1 { c8Cached with source_cache := [] } _ "https://x.test/a"
     (by decide)⟩

/-! ## Command classification (claim C9) -/

/-- C9: command recognition applies only on an exact case-insensitive,
whitespace-trimmed match against the command vocabulary: "skip" is
classified as Skip while "I will skip the details" is auto-submitted as
a literal answer, and in general any text whose lowered and trimmed
form is outside the phrase lists is submitted verbatim. -/
theorem C9_exact_match_only :
    classifyAnswerVoice "skip" = AnswerVoiceCmd.skipCmd
    ∧ classifyAnswerVoice " Skip " = AnswerVoiceCmd.skipCmd
    ∧ classifyAnswerVoice "I will skip the details"
        = AnswerVoiceCmd.autoSubmit "I will skip the details"
    ∧ classifyNavVoice "skip" true = NavCmd.skipCmd
    ∧ classifyNavVoice "I will skip the details" true = NavCmd.noAction
    ∧ (∀ t : String,
        pyStrip (pyLower t) ∉ (["skip", "skip card", "next card", "pass"] : List String) →
        pyStrip (pyLower t) ∉ (["next", "continue", "go on"] : List String) →
        classifyAnswerVoice t = AnswerVoiceCmd.autoSubmit t) := by
  refine ⟨by decide, by decide, by decide, by decide, by decide, ?_⟩
  intro t h1 h2
  simp [classifyAnswerVoice, h1, h2]

/-- Witness for C9: the exact-match statement applied at a concrete
out-of-vocabulary utterance. -/
theorem C9_witness :
    classifyAnswerVoice "tell me more please"
      = AnswerVoiceCmd.autoSubmit "tell me more please" :=
  C9_exact_match_only.2.2.2.2.2 "tell me more please" (by decide) (by decide)

/-! ## Empty and whitespace-only submissions (claim C10) -/

def c10State : Engine :=
  { review_state := RState.question, current_card_index := 0, num_cards := 1
    follow_up_count := 0, conversation_history := [], current_evaluation := none
    rephrased_question := "Q", outcome_log := [] }

def c10Verdict : EngineVerdict := { is_correct := true, follow_up := none }

/-- C10 as stated is false on the code: the submit gates are Python
string truthiness (`disabled=not user_answer` and
`if submit and user_answer:`), and a whitespace-only answer is a
non-empty string, so `" "` passes both gates — the evaluation call is
made and the state transitions to evaluating, instead of being a
no-op. -/
theorem C10_counterexample :
    (submitHandler c10State " " c10Verdict).2 = true
    ∧ (submitHandler c10State " " c10Verdict).1.review_state = RState.evaluating
    ∧ (submitHandler c10State " " c10Verdict).1 ≠ c10State := by
  refine ⟨by decide, by decide, by decide⟩

/-- C10 (amended): only the empty string is a no-op — the Engine
performs no state transition and makes no evaluation call on empty
learner text — while any non-empty text (whitespace-only included) in
the answer-collection state is submitted and evaluated. -/
theorem C10_empty_only_noop :
    (∀ (s : Engine) (v : EngineVerdict), submitHandler s "" v = (s, false))
    ∧ (∀ (s : Engine) (t : String) (v : EngineVerdict),
        s.review_state = RState.question → s.rephrased_question ≠ "" → t ≠ "" →
        (submitHandler s t v).2 = true
        ∧ (submitHandler s t v).1.review_state = RState.evaluating) := by
  constructor
  · intro s v
    simp [submitHandler]
  · intro s t v h1 h2 h3
    constructor <;> simp [submitHandler, step, h1, h2, h3]

/-- Witness for C10: the no-op and submission statements at concrete
inputs. -/
theorem C10_witness :
    submitHandler c10State "" c10Verdict = (c10State, false)
    ∧ (submitHandler c10State "an answer" c10Verdict).2 = true :=
  ⟨C10_empty_only_noop.1 c10State c10Verdict,
   (C10_empty_only_noop.2 c10State "an answer" c10Verdict (by decide) (by decide)
     (by decide)).1⟩

end FeynmanFlashcards
